import Mathlib

/-!
Shallow embedding of `src/app.py` (devotional web app: spreadsheet-backed
login/registration plus date-keyed content display).

Modelling conventions:
* A pandas `DataFrame` built from `sheet.get_all_records()` is modelled as an
  explicit header (`columns`) together with rows; each row is an association
  list from column name to cell value, mirroring the record dictionaries.
* bcrypt is an external library; its output string is modelled abstractly as a
  `BcryptHash` value carrying the random salt and the digest that the salt and
  password determine.  The model is collision-free, which is the idealisation
  stated in the spec ("false with overwhelming probability").
* Streamlit session state (`authenticated`, `is_registering`, `user_email`)
  becomes an explicit `SessionState` record; the UI handlers become functions
  from state to state plus a result describing which message branch ran.
* The remote sheet and the possibility that `sheet is None` or that
  `sheet.append_row` raises are modelled by explicit booleans
  (`sheetAvailable`, `appendOk`) and a list of appended remote rows.
-/

/-- Model of a bcrypt hash string: the embedded random salt together with the
digest, which in the ideal model is determined by (and determines) the salt
and the hashed password. -/
structure BcryptHash where
  salt : Nat
  digestOf : String
deriving DecidableEq, Repr

/-- Model of `bcrypt.hashpw(password, salt)`: a self-describing hash embedding
the salt. -/
def bcrypt_hashpw (password : String) (salt : Nat) : BcryptHash :=
  ⟨salt, password⟩

/-- Model of `bcrypt.checkpw(password, hashed)`: recompute with the embedded
salt and compare digests. -/
def bcrypt_checkpw (password : String) (hashed : BcryptHash) : Bool :=
  bcrypt_hashpw password hashed.salt == hashed

/-- `hash_password` from src/app.py lines 92-97: hash with a fresh salt.  The
salt produced by `bcrypt.gensalt()` is passed explicitly. -/
def hash_password (password : String) (salt : Nat) : BcryptHash :=
  bcrypt_hashpw password salt

/-- `check_password` from src/app.py lines 99-101. -/
def check_password (password : String) (hashed : BcryptHash) : Bool :=
  bcrypt_checkpw password hashed

/-- A spreadsheet cell: either a plain string or a stored bcrypt hash. -/
inductive Value where
  | str : String → Value
  | hashv : BcryptHash → Value
deriving DecidableEq, Repr

/-- One spreadsheet row as produced by `get_all_records`: an association list
from column name to cell value. -/
abbrev Row := List (String × Value)

/-- Cell lookup in a row (dictionary access). -/
def Row.get (r : Row) (c : String) : Option Value :=
  (r.find? (fun kv => kv.1 == c)).map (fun kv => kv.2)

/-- Model of a pandas DataFrame: the header plus the data rows. -/
structure DataFrame where
  columns : List String
  rows : List Row
deriving DecidableEq, Repr

/-- `df[df[c] == v]`: keep the rows whose cell in column `c` equals `v`. -/
def DataFrame.filterEq (df : DataFrame) (c : String) (v : Value) : DataFrame :=
  { df with rows := df.rows.filter (fun r => r.get c == some v) }

/-- `v in df[c].tolist()`: some row's cell in column `c` equals `v`. -/
def DataFrame.columnContains (df : DataFrame) (c : String) (v : Value) : Bool :=
  df.rows.any (fun r => r.get c == some v)

/-- `pd.concat([df, one_row_df], ignore_index=True)`: append the row; the
header becomes the union of the old header and the new row's columns. -/
def DataFrame.concatRow (df : DataFrame) (newCols : List String) (r : Row) : DataFrame :=
  { columns := df.columns ++ newCols.filter (fun c => !df.columns.contains c),
    rows := df.rows ++ [r] }

/-- Streamlit session state as used by src/app.py (lines 271-276). -/
structure SessionState where
  authenticated : Bool
  is_registering : Bool
  user_email : Option String
deriving DecidableEq, Repr

/-- Python `str.lower`: lowercase every character. -/
def py_lower (s : String) : String :=
  ⟨s.data.map Char.toLower⟩

/-- Python `str.strip`: drop whitespace from both ends. -/
def py_strip (s : String) : String :=
  ⟨((s.data.dropWhile Char.isWhitespace).reverse.dropWhile Char.isWhitespace).reverse⟩

/-- Email normalisation applied to the text inputs: `.lower().strip()`
(src/app.py lines 146 and 193). -/
def normalize_email (raw : String) : String :=
  py_strip (py_lower raw)

/-- Outcome of a submitted login form, one constructor per message branch of
`login_ui` (src/app.py lines 150-180). -/
inductive LoginResult where
  | emptyStore
  | missingEmailCol
  | missingHashCol
  | notFound
  | wrongPassword
  | success
deriving DecidableEq, Repr

/-- The submitted-login branch of `login_ui` (src/app.py lines 150-180): the new
session state together with which message branch ran.  The email input is
normalised at the text field (line 146); the password input is not.  A stored
cell that is not a bcrypt hash cannot verify and is modelled as a mismatch. -/
def login_step (df_users : DataFrame) (st : SessionState) (raw_email password : String) :
    SessionState × LoginResult :=
  let email := normalize_email raw_email
  if df_users.rows.isEmpty then (st, .emptyStore)
  else if !df_users.columns.contains "Email" then (st, .missingEmailCol)
  else
    let user_data := df_users.filterEq "Email" (.str email)
    if user_data.rows.isEmpty then (st, .notFound)
    else if !user_data.columns.contains "Mot_de_Passe_Haché" then (st, .missingHashCol)
    else
      match user_data.rows.head?.bind (fun r => r.get "Mot_de_Passe_Haché") with
      | some (.hashv h) =>
          if check_password password h then
            ({ authenticated := true, is_registering := false, user_email := some email },
              .success)
          else (st, .wrongPassword)
      | _ => (st, .wrongPassword)

/-- The login outcome alone (state-independent part of `login_step`). -/
def login_result (df_users : DataFrame) (raw_email password : String) : LoginResult :=
  (login_step df_users ⟨false, false, none⟩ raw_email password).2

/-- Outcome of `register_user`, one constructor per branch of src/app.py
lines 103-137. -/
inductive RegisterResult where
  | noSheet
  | alreadyUsed
  | emptyFields
  | remoteError
  | ok
deriving DecidableEq, Repr

/-- The mutable application data touched by registration: the in-memory
`df_users` snapshot and the rows appended to the remote Users sheet during
this session. -/
structure AppState where
  df_users : DataFrame
  remote_rows : List (List Value)
deriving DecidableEq, Repr

/-- Header of the Users sheet (src/app.py line 125). -/
def userColumns : List String :=
  ["Email", "Mot_de_Passe_Haché", "Date_Inscription"]

/-- The in-memory row built on successful registration (src/app.py line 131). -/
def newUserRow (email : String) (hashed : BcryptHash) (today : String) : Row :=
  [("Email", .str email), ("Mot_de_Passe_Haché", .hashv hashed), ("Date_Inscription", .str today)]

/-- The duplicate-email condition of src/app.py line 113:
`not df_users.empty and "Email" in df_users.columns.tolist() and
email in df_users["Email"].tolist()`. -/
def email_already_used (df : DataFrame) (email : String) : Bool :=
  !df.rows.isEmpty && df.columns.contains "Email"
    && df.columnContains "Email" (.str email)

/-- `register_user` from src/app.py lines 103-137.  `sheetAvailable` models
`sheet is not None`; `appendOk` models whether `sheet.append_row` succeeds or
raises; `salt` is the fresh salt from `bcrypt.gensalt()`; `today` is
`date.today().strftime`.  Returns the message branch that ran and the new
application state. -/
def register_user (st : AppState) (sheetAvailable appendOk : Bool)
    (email password : String) (salt : Nat) (today : String) :
    RegisterResult × AppState :=
  if !sheetAvailable then (.noSheet, st)
  else if email_already_used st.df_users email then
    (.alreadyUsed, st)
  else if email = "" ∨ password = "" then (.emptyFields, st)
  else
    let hashed := hash_password password salt
    if appendOk then
      (.ok,
        { df_users := st.df_users.concatRow userColumns (newUserRow email hashed today),
          remote_rows := st.remote_rows ++ [[.str email, .hashv hashed, .str today]] })
    else (.remoteError, st)

/-- The submitted-registration branch of `register_ui` (src/app.py
lines 192-201): the email input is normalised at the text field (line 193) and
on success `is_registering` is cleared. -/
def register_submit (st : AppState) (sess : SessionState) (sheetAvailable appendOk : Bool)
    (raw_email password : String) (salt : Nat) (today : String) :
    RegisterResult × AppState × SessionState :=
  let out := register_user st sheetAvailable appendOk (normalize_email raw_email)
    password salt today
  (out.1, out.2, if out.1 = .ok then { sess with is_registering := false } else sess)

/-- Outcome of the daily-content resolution in `display_careme_content`,
one constructor per branch of src/app.py lines 220-240. -/
inductive ResolveResult where
  | configError
  | notFound
  | found : Row → ResolveResult
deriving DecidableEq, Repr

/-- The content-resolution logic of `display_careme_content` (src/app.py
lines 216-240): guard the Date column, filter on today's date string, and take
the first matching row (`iloc[0]`); an empty filter result renders the static
placeholder. -/
def resolve (df_careme : DataFrame) (today_str : String) : ResolveResult :=
  if !df_careme.columns.contains "Date" then .configError
  else
    let content_today := df_careme.filterEq "Date" (.str today_str)
    match content_today.rows with
    | [] => .notFound
    | r :: _ => .found r

/-- The user-triggered events that mutate the session state, one constructor
per `st.session_state` mutation site in src/app.py: login form outcome
(lines 171-180), registration form outcome (lines 197-201), the two mode
toggle buttons (lines 184-186 and 205-207) and the logout button
(lines 294-297). -/
inductive Event where
  | loginSuccess : String → Event
  | loginFailure : Event
  | registerSuccess : Event
  | registerFailure : Event
  | gotoRegister : Event
  | backToLogin : Event
  | logout : Event
deriving DecidableEq, Repr

/-- Effect of each event on the session state, exactly the `st.session_state`
assignments at the corresponding source lines. -/
def session_step (st : SessionState) (ev : Event) : SessionState :=
  match ev with
  | .loginSuccess email =>
      { authenticated := true, is_registering := false, user_email := some email }
  | .loginFailure => st
  | .registerSuccess => { st with is_registering := false }
  | .registerFailure => st
  | .gotoRegister => { st with is_registering := true }
  | .backToLogin => { st with is_registering := false }
  | .logout => { st with authenticated := false, user_email := none }

/-- Which events the UI can emit in which state, following the dispatch in
`main_app_flow` (src/app.py lines 287-305): when authenticated only the logout
button is shown; otherwise `register_ui` or `login_ui` is shown according to
`is_registering`. -/
def event_allowed (st : SessionState) (ev : Event) : Bool :=
  if st.authenticated then
    match ev with
    | .logout => true
    | _ => false
  else if st.is_registering then
    match ev with
    | .registerSuccess => true
    | .registerFailure => true
    | .backToLogin => true
    | _ => false
  else
    match ev with
    | .loginSuccess _ => true
    | .loginFailure => true
    | .gotoRegister => true
    | _ => false

/-- Initial session state (src/app.py lines 271-276). -/
def initialSession : SessionState :=
  ⟨false, false, none⟩

/-- Session states reachable from the initial state through UI-allowed
events. -/
inductive Reachable : SessionState → Prop where
  | init : Reachable initialSession
  | step : ∀ (st : SessionState) (ev : Event), Reachable st → event_allowed st ev = true →
      Reachable (session_step st ev)

/-- The Users table of the spec's login scenario: one row with email
`a@x.com`, the hash of `pw`, and registration date `2024-01-01`. -/
def scenarioUsers : DataFrame :=
  ⟨userColumns,
   [[("Email", .str "a@x.com"), ("Mot_de_Passe_Haché", .hashv (hash_password "pw" 0)),
     ("Date_Inscription", .str "2024-01-01")]]⟩

/-- A Users snapshot holding a row whose Email cell is the empty string. -/
def emptyEmailState : AppState :=
  ⟨⟨userColumns,
    [[("Email", .str ""), ("Mot_de_Passe_Haché", .hashv (hash_password "q" 0)),
      ("Date_Inscription", .str "2024-01-01")]]⟩, []⟩

/-- A fresh application state: empty snapshot, nothing appended remotely. -/
def emptyAppState : AppState :=
  ⟨⟨[], []⟩, []⟩

/-- A Content table with two rows sharing the date `2026-03-01`. -/
def dupDateContent : DataFrame :=
  ⟨["Date", "Jour"],
   [[("Date", .str "2026-03-01"), ("Jour", .str "1")],
    [("Date", .str "2026-03-01"), ("Jour", .str "2")]]⟩

/-! ## Helper lemmas -/

/-- Verifying a password against the hash freshly produced for it succeeds. -/
theorem check_password_hash (p : String) (salt : Nat) :
    check_password p (hash_password p salt) = true := by
  simp [check_password, hash_password, bcrypt_checkpw, bcrypt_hashpw]

/-- A successful registration extends the snapshot and the remote rows with
exactly the locally built row. -/
theorem register_user_ok (st : AppState) (e p : String) (salt : Nat) (today : String)
    (hdup : st.df_users.columnContains "Email" (.str e) = false)
    (he : e ≠ "") (hp : p ≠ "") :
    register_user st true true e p salt today =
      (.ok,
       ⟨st.df_users.concatRow userColumns (newUserRow e (hash_password p salt) today),
        st.remote_rows ++ [[.str e, .hashv (hash_password p salt), .str today]]⟩) := by
  unfold register_user
  simp [email_already_used, hdup, he, hp]

/-- Appending a row leaves the row list non-empty. -/
theorem concatRow_rows_not_empty (df : DataFrame) (cols : List String) (r : Row) :
    (df.concatRow cols r).rows.isEmpty = false := by
  simp [DataFrame.concatRow]

/-- The header after `concatRow` contains every column of the appended row's
header. -/
theorem concatRow_columns_contains (df : DataFrame) (cols : List String) (r : Row)
    (c : String) (hc : c ∈ cols) :
    (df.concatRow cols r).columns.contains c = true := by
  by_cases h : c ∈ df.columns <;> simp [DataFrame.concatRow, h, hc]

/-- Membership form of `concatRow_columns_contains`. -/
theorem mem_concatRow_columns (df : DataFrame) (cols : List String) (r : Row)
    (c : String) (hc : c ∈ cols) :
    c ∈ (df.concatRow cols r).columns := by
  simpa using concatRow_columns_contains df cols r c hc

/-- `filterEq` keeps the header unchanged. -/
theorem filterEq_columns (df : DataFrame) (c : String) (v : Value) :
    (df.filterEq c v).columns = df.columns := rfl

/-- After `concatRow`, the appended row's cell is found by `columnContains`. -/
theorem concatRow_columnContains (df : DataFrame) (cols : List String) (r : Row)
    (c : String) (v : Value) (hr : r.get c = some v) :
    (df.concatRow cols r).columnContains c v = true := by
  simp [DataFrame.concatRow, DataFrame.columnContains, hr]

/-- If no cell of a column equals `v`, the rows filtered on that value form the
empty list. -/
theorem filter_eq_nil_of_not_columnContains (df : DataFrame) (c : String) (v : Value)
    (h : df.columnContains c v = false) :
    df.rows.filter (fun r => r.get c == some v) = [] := by
  rw [List.filter_eq_nil_iff]
  intro a ha
  simp only [DataFrame.columnContains, List.any_eq_false] at h
  simpa using h a ha

/-- The appended user row exposes its email cell. -/
theorem newUserRow_get_email (e : String) (h : BcryptHash) (t : String) :
    (newUserRow e h t).get "Email" = some (.str e) := rfl

/-- The appended user row exposes its password-hash cell. -/
theorem newUserRow_get_hash (e : String) (h : BcryptHash) (t : String) :
    (newUserRow e h t).get "Mot_de_Passe_Haché" = some (.hashv h) := rfl

/-- Filtering a freshly appended row's column value selects exactly that row
when no earlier row carried the value. -/
theorem concatRow_filterEq_rows (df : DataFrame) (cols : List String) (r : Row)
    (c : String) (v : Value) (hnone : df.columnContains c v = false)
    (hr : r.get c = some v) :
    (DataFrame.filterEq (df.concatRow cols r) c v).rows = [r] := by
  simp [DataFrame.filterEq, DataFrame.concatRow,
    filter_eq_nil_of_not_columnContains df c v hnone, hr]

/-- After a successful registration the duplicate-email condition holds for
the registered email. -/
theorem email_already_used_after_register (df : DataFrame) (n : String)
    (h : BcryptHash) (t : String) :
    email_already_used (df.concatRow userColumns (newUserRow n h t)) n = true := by
  have h1 := concatRow_rows_not_empty df userColumns (newUserRow n h t)
  have h2 := concatRow_columns_contains df userColumns (newUserRow n h t) "Email"
    (by simp [userColumns])
  have h3 := concatRow_columnContains df userColumns (newUserRow n h t) "Email"
    (.str n) (newUserRow_get_email n h t)
  have h2' : "Email" ∈ (df.concatRow userColumns (newUserRow n h t)).columns := by
    simpa using h2
  simp [email_already_used, h1, h2', h3]

/-- The session-state invariant maintained by the UI flow: while logged in the
registering flag is down, and while logged out no user email is recorded. -/
theorem reachable_good {st : SessionState} (h : Reachable st) :
    (st.authenticated = true → st.is_registering = false) ∧
    (st.authenticated = false → st.user_email = none) := by
  induction h with
  | init => simp [initialSession]
  | step st ev _hr hok ih =>
      cases ev with
      | loginSuccess e => simp [session_step]
      | loginFailure => exact ih
      | registerSuccess => exact ⟨fun _ => rfl, fun ha => ih.2 ha⟩
      | registerFailure => exact ih
      | backToLogin => exact ⟨fun _ => rfl, fun ha => ih.2 ha⟩
      | gotoRegister =>
          have ha : st.authenticated = false := by
            by_cases hb : st.authenticated
            · simp [event_allowed, hb] at hok
            · simpa using hb
          exact ⟨fun htrue => absurd htrue (by simp [session_step, ha]),
                 fun _ => ih.2 ha⟩
      | logout => exact ⟨fun htrue => absurd htrue (by simp [session_step]), fun _ => rfl⟩

/-! ## Claim theorems -/

/-- C2: for every password `P` (and every generated salt), verifying `P`
against the hash freshly produced for `P` succeeds:
`check_password P (hash_password P) = true`. -/
theorem verify_of_hash (p : String) (salt : Nat) :
    check_password p (hash_password p salt) = true :=
  check_password_hash p salt

/-- C1 counterexample: on the scenario table, `login("A@X.com ", " pw")` is
rejected with the wrong-password error rather than returning Ok, because the
submitted password is not trimmed. -/
theorem login_scenario_password_space_cex :
    login_result scenarioUsers "A@X.com " " pw" = .wrongPassword ∧
    login_result scenarioUsers "A@X.com " " pw" ≠ .success := by
  constructor
  · decide
  · decide

/-- C1 amended: the login operation normalizes the submitted email to
lowercase and trimmed before lookup but passes the password through
unmodified, so `login("A@X.com ", "pw")` returns Ok while
`login("A@X.com ", " pw")` is rejected with the wrong-password error;
`login("a@x.com", "wrong")` is rejected with the wrong-password error and
`login("b@x.com", "pw")` with the user-not-found error. -/
theorem login_scenario_email_normalized :
    login_result scenarioUsers "A@X.com " "pw" = .success ∧
    login_result scenarioUsers "A@X.com " " pw" = .wrongPassword ∧
    login_result scenarioUsers "a@x.com" "wrong" = .wrongPassword ∧
    login_result scenarioUsers "b@x.com" "pw" = .notFound := by
  refine ⟨by decide, by decide, by decide, by decide⟩

/-- C4 counterexample: with a snapshot holding a row whose Email cell is the
empty string, `register("", "x")` is rejected as already-used, not for
emptiness: the duplicate-email check runs before the emptiness check. -/
theorem register_order_cex :
    (register_user emptyEmailState true true "" "x" 0 "2024-02-01").1 = .alreadyUsed ∧
    (register_user emptyEmailState true true "" "x" 0 "2024-02-01").1 ≠ .emptyFields := by
  constructor
  · decide
  · decide

/-- C4 amended: with the store available, `register_user` evaluates its
rejection conditions with the duplicate-email check first and the emptiness
check second: an email already present in the snapshot is rejected as
already-used (even when it is empty), and only a call that passes the
duplicate check is rejected for an empty email or password. -/
theorem register_rejection_order (st : AppState) (ak : Bool) (e p : String)
    (salt : Nat) (today : String) :
    (email_already_used st.df_users e = true →
      (register_user st true ak e p salt today).1 = .alreadyUsed) ∧
    (email_already_used st.df_users e = false →
      (e = "" ∨ p = "") →
      (register_user st true ak e p salt today).1 = .emptyFields) := by
  constructor
  · intro h
    unfold register_user
    simp [h]
  · intro h he
    unfold register_user
    simp [h, he]

/-- C4 witness: the duplicate branch fires on `emptyEmailState` and the
emptiness branch fires on the fresh state. -/
theorem register_rejection_order_witness :
    (register_user emptyEmailState true true "" "x" 0 "2024-02-01").1 = .alreadyUsed ∧
    (register_user emptyAppState true true "" "x" 0 "2024-02-01").1 = .emptyFields :=
  ⟨(register_rejection_order emptyEmailState true "" "x" 0 "2024-02-01").1 (by decide),
   (register_rejection_order emptyAppState true "" "x" 0 "2024-02-01").2 (by decide)
     (Or.inl rfl)⟩

/-- C8: for every Content table whose header lacks the Date column, `resolve`
reports the configuration error (and, being a total function, does not
crash), for every query date. -/
theorem resolve_missing_date_config_error (df : DataFrame) (d : String)
    (h : df.columns.contains "Date" = false) :
    resolve df d = .configError := by
  have h' : "Date" ∉ df.columns := by simpa using h
  simp [resolve, h']

/-- C8 witness: a table with only an `X` column yields the configuration
error. -/
theorem resolve_missing_date_config_error_witness :
    resolve ⟨["X"], []⟩ "2026-03-01" = .configError :=
  resolve_missing_date_config_error ⟨["X"], []⟩ "2026-03-01" (by decide)

/-- C3: for every Content table with a Date column and every query date `d`:
if the rows whose Date cell equals `d` form the empty list (in particular in
an empty table), `resolve` returns NotFound (the caller then renders the
static placeholder); if they form exactly one row, `resolve` returns that
row; and whenever they form a non-empty list — so also with two or more
matches — `resolve` returns the first matching row in table order. -/
theorem resolve_date_cases (df : DataFrame) (d : String)
    (hcol : df.columns.contains "Date" = true) :
    (df.rows.filter (fun r => r.get "Date" == some (Value.str d)) = [] →
      resolve df d = .notFound) ∧
    (∀ r : Row, df.rows.filter (fun r => r.get "Date" == some (Value.str d)) = [r] →
      resolve df d = .found r) ∧
    (∀ (r : Row) (rest : List Row),
      df.rows.filter (fun r => r.get "Date" == some (Value.str d)) = r :: rest →
      resolve df d = .found r) := by
  have hcol' : "Date" ∈ df.columns := by simpa using hcol
  refine ⟨?_, ?_, ?_⟩
  · intro h
    simp [resolve, hcol', DataFrame.filterEq, h]
  · intro r h
    simp [resolve, hcol', DataFrame.filterEq, h]
  · intro r rest h
    simp [resolve, hcol', DataFrame.filterEq, h]

/-- C3 witness: on a table with two rows dated `2026-03-01`, `resolve`
returns the first of them. -/
theorem resolve_date_cases_witness :
    resolve dupDateContent "2026-03-01" =
      .found [("Date", .str "2026-03-01"), ("Jour", .str "1")] :=
  (resolve_date_cases dupDateContent "2026-03-01" (by decide)).2.2
    [("Date", .str "2026-03-01"), ("Jour", .str "1")]
    [[("Date", .str "2026-03-01"), ("Jour", .str "2")]] (by decide)

/-- C5: for every registration attempt, if the remote append fails the call
does not return Ok; the result is Ok exactly when both the snapshot and the
remote rows get extended with the locally built row (no re-read of the remote
table); and any non-Ok outcome leaves the application state unchanged. -/
theorem register_snapshot_frame (st : AppState) (sa ak : Bool) (e p : String)
    (salt : Nat) (today : String) :
    (ak = false → (register_user st sa ak e p salt today).1 ≠ .ok) ∧
    ((register_user st sa ak e p salt today).1 = .ok →
      (register_user st sa ak e p salt today).2 =
        ⟨st.df_users.concatRow userColumns (newUserRow e (hash_password p salt) today),
         st.remote_rows ++ [[.str e, .hashv (hash_password p salt), .str today]]⟩) ∧
    ((register_user st sa ak e p salt today).1 ≠ .ok →
      (register_user st sa ak e p salt today).2 = st) := by
  unfold register_user
  repeat' split <;> simp_all

/-- C5 witness: on the fresh state, a failing remote append leaves the state
unchanged, and a succeeding one appends exactly the new row. -/
theorem register_snapshot_frame_witness :
    (register_user emptyAppState true false "a@x.com" "pw" 0 "2026-03-01").2 =
      emptyAppState ∧
    (register_user emptyAppState true true "a@x.com" "pw" 0 "2026-03-01").2 =
      ⟨emptyAppState.df_users.concatRow userColumns
        (newUserRow "a@x.com" (hash_password "pw" 0) "2026-03-01"),
       emptyAppState.remote_rows ++
        [[.str "a@x.com", .hashv (hash_password "pw" 0), .str "2026-03-01"]]⟩ :=
  ⟨(register_snapshot_frame emptyAppState true false "a@x.com" "pw" 0 "2026-03-01").2.2
     ((register_snapshot_frame emptyAppState true false "a@x.com" "pw" 0 "2026-03-01").1 rfl),
   (register_snapshot_frame emptyAppState true true "a@x.com" "pw" 0 "2026-03-01").2.1
     (by decide)⟩

/-- C10: every failed login attempt leaves the session state unchanged, for
every user table, prior state and submitted credentials; only a successful
login sets the authenticated flag and records the (normalised) submitted
email. -/
theorem failed_login_frame (df : DataFrame) (st : SessionState) (e p : String) :
    ((login_step df st e p).2 ≠ .success → (login_step df st e p).1 = st) ∧
    ((login_step df st e p).2 = .success →
      (login_step df st e p).1 = ⟨true, false, some (normalize_email e)⟩) := by
  simp only [login_step]
  repeat' split
  all_goals simp_all

/-- C10 witness: a login attempt against a store with no rows fails and keeps
the prior session state, here one that was in registering mode. -/
theorem failed_login_frame_witness :
    (login_step ⟨["Email"], []⟩ ⟨false, true, some "x"⟩ "a@x.com" "pw").1 =
      ⟨false, true, some "x"⟩ :=
  (failed_login_frame ⟨["Email"], []⟩ ⟨false, true, some "x"⟩ "a@x.com" "pw").1 (by decide)

/-- C6: within one session, after a successful registration of an email the
second registration attempt with the same email (any password, salt, date and
remote-append outcome) is rejected as already-used and changes neither the
in-memory snapshot, the remote rows, nor the session state. -/
theorem register_duplicate_second_call (st : AppState) (sess sess' : SessionState)
    (raw p p' : String) (salt salt' : Nat) (today today' : String) (ak' : Bool)
    (hdup : st.df_users.columnContains "Email" (.str (normalize_email raw)) = false)
    (he : normalize_email raw ≠ "") (hp : p ≠ "") :
    (register_submit st sess true true raw p salt today).1 = .ok ∧
    register_submit (register_submit st sess true true raw p salt today).2.1 sess' true ak'
        raw p' salt' today' =
      (.alreadyUsed, (register_submit st sess true true raw p salt today).2.1, sess') := by
  have h1 := register_user_ok st (normalize_email raw) p salt today hdup he hp
  constructor
  · simp [register_submit, h1]
  · have h2 : register_user
        ⟨st.df_users.concatRow userColumns
          (newUserRow (normalize_email raw) (hash_password p salt) today),
         st.remote_rows ++
          [[.str (normalize_email raw), .hashv (hash_password p salt), .str today]]⟩
        true ak' (normalize_email raw) p' salt' today' =
        (.alreadyUsed,
         ⟨st.df_users.concatRow userColumns
            (newUserRow (normalize_email raw) (hash_password p salt) today),
          st.remote_rows ++
            [[.str (normalize_email raw), .hashv (hash_password p salt), .str today]]⟩) := by
      unfold register_user
      simp [email_already_used_after_register]
    simp [register_submit, h1, h2]

/-- C6 witness: registering `a@x.com` on the fresh state succeeds and the
second attempt is rejected as already-used without touching the state. -/
theorem register_duplicate_second_call_witness :
    (register_submit emptyAppState initialSession true true "a@x.com" "pw" 0
        "2026-03-01").1 = .ok ∧
    register_submit
        (register_submit emptyAppState initialSession true true "a@x.com" "pw" 0
          "2026-03-01").2.1 initialSession true true "a@x.com" "pw2" 1 "2026-03-02" =
      (.alreadyUsed,
       (register_submit emptyAppState initialSession true true "a@x.com" "pw" 0
          "2026-03-01").2.1, initialSession) :=
  register_duplicate_second_call emptyAppState initialSession initialSession
    "a@x.com" "pw" "pw2" 0 1 "2026-03-01" "2026-03-02" true
    (by decide) (by decide) (by decide)

/-- C7: within one session, for every submitted email whose normalisation is
non-empty and not already in the snapshot and every non-empty password, a
successful registration followed by a login with the same credentials
succeeds: the newly appended in-memory row is found and its hash verifies. -/
theorem register_then_login_succeeds (st : AppState) (sess stL : SessionState)
    (raw p : String) (salt : Nat) (today : String)
    (hdup : st.df_users.columnContains "Email" (.str (normalize_email raw)) = false)
    (he : normalize_email raw ≠ "") (hp : p ≠ "") :
    (register_submit st sess true true raw p salt today).1 = .ok ∧
    (login_step (register_submit st sess true true raw p salt today).2.1.df_users
        stL raw p).2 = .success := by
  have h1 := register_user_ok st (normalize_email raw) p salt today hdup he hp
  constructor
  · simp [register_submit, h1]
  · simp only [register_submit, h1]
    simp [login_step, concatRow_rows_not_empty, mem_concatRow_columns,
      filterEq_columns, concatRow_filterEq_rows, newUserRow_get_email,
      newUserRow_get_hash, check_password_hash, hdup, userColumns]

/-- C7 witness: on the fresh state, registering `A@x.com ` with password `pw`
succeeds and logging in with the same submitted credentials succeeds. -/
theorem register_then_login_succeeds_witness :
    (register_submit emptyAppState initialSession true true "A@x.com " "pw" 0
        "2026-03-01").1 = .ok ∧
    (login_step (register_submit emptyAppState initialSession true true "A@x.com " "pw" 0
        "2026-03-01").2.1.df_users initialSession "A@x.com " "pw").2 = .success :=
  register_then_login_succeeds emptyAppState initialSession initialSession
    "A@x.com " "pw" 0 "2026-03-01" (by decide) (by decide) (by decide)

/-- C9: on every reachable session state, a successful registration performed
in the registering phase moves the session to the logged-out state with no
current user email (not to the logged-in state), and a logout performed while
logged in resets the session exactly to the initial logged-out state with no
user email. -/
theorem session_machine_transitions (st : SessionState) (h : Reachable st) :
    (st.authenticated = false → st.is_registering = true →
      session_step st .registerSuccess = initialSession) ∧
    (st.authenticated = true → session_step st .logout = initialSession) := by
  obtain ⟨h1, h2⟩ := reachable_good h
  constructor
  · intro ha _hreg
    have he := h2 ha
    cases st
    simp_all [session_step, initialSession]
  · intro ha
    have hr := h1 ha
    cases st
    simp_all [session_step, initialSession]

/-- C9 witness: from the reachable registering state a successful registration
lands on the initial logged-out state, and from the reachable logged-in state
a logout lands on the initial logged-out state. -/
theorem session_machine_transitions_witness :
    session_step ⟨false, true, none⟩ .registerSuccess = initialSession ∧
    session_step ⟨true, false, some "a@x.com"⟩ .logout = initialSession :=
  ⟨(session_machine_transitions ⟨false, true, none⟩
      (Reachable.step initialSession .gotoRegister Reachable.init (by decide))).1 rfl rfl,
   (session_machine_transitions ⟨true, false, some "a@x.com"⟩
      (Reachable.step initialSession (.loginSuccess "a@x.com") Reachable.init (by decide))).2
      rfl⟩
